import Mathlib

/-!
Verification development for the token screening engine
(`src/token_filtering/src/main.rs`).

Modelling conventions for the shallow embedding:
* `f64` values are embedded as exact rationals (`Rat`); the program only
  compares, divides and sums such values, and no claim under study depends
  on binary rounding of IEEE arithmetic.
* `u64` counters are embedded as `Nat` (no arithmetic that could wrap
  occurs on them) and `i64` scores as `Int`.
* `serde_json::Value` is embedded as the inductive `Json` below; `get`,
  `as_u64`, `as_i64`, `as_f64`, `as_str`, `as_bool`, `as_array` mirror the
  serde accessors used by the program.
* Rust `str::contains` (substring test) is embedded as `strContains`,
  and `str::to_lowercase` as `strToLower` (the tags matched are ASCII).
* The mutable `Vec<String>` of reasons built by `evaluate` is embedded as
  the concatenation of one list segment per check, in the push order of
  the source.
* Rust float formatting with a fixed number of decimals is embedded by
  `fmtFixed` (rounding to the nearest multiple of 10^-d, half up); no
  claim depends on the tie-breaking of the display rounding.
-/

/-- Substring test: models Rust `str::contains` for string patterns. -/
def strContains (s pat : String) : Bool :=
  s.data.tails.any (fun t => pat.data.isPrefixOf t)

/-- Test that `p` is a prefix of `s`: models the spec notion of a reason
string being prefixed by a given marker. -/
def strStartsWith (p s : String) : Bool :=
  p.data.isPrefixOf s.data

/-- Embedding of a parsed JSON document (`serde_json::Value`). -/
inductive Json where
  | null
  | bool (b : Bool)
  | num (q : Rat)
  | str (s : String)
  | arr (elems : List Json)
  | obj (fields : List (String × Json))

/-- Models `serde_json::Value::get(key)`: field lookup on objects, `none`
on every other shape. -/
def Json.get : Json → String → Option Json
  | .obj fields, key => fields.lookup key
  | _, _ => none

/-- Models `as_u64`: the number must be an integer representable in `u64`. -/
def Json.as_u64 : Json → Option Nat
  | .num q => if q.den = 1 ∧ 0 ≤ q.num ∧ q.num < 2 ^ 64 then some q.num.toNat else none
  | _ => none

/-- Models `as_i64`: the number must be an integer representable in `i64`. -/
def Json.as_i64 : Json → Option Int
  | .num q => if q.den = 1 ∧ -(2 ^ 63) ≤ q.num ∧ q.num < 2 ^ 63 then some q.num else none
  | _ => none

/-- Models `as_f64`: every JSON number is representable. -/
def Json.as_f64 : Json → Option Rat
  | .num q => some q
  | _ => none

/-- Models `as_str`. -/
def Json.as_str : Json → Option String
  | .str s => some s
  | _ => none

/-- Models `as_bool`. -/
def Json.as_bool : Json → Option Bool
  | .bool b => some b
  | _ => none

/-- Models `as_array`. -/
def Json.as_array : Json → Option (List Json)
  | .arr elems => some elems
  | _ => none

/-- One flagged concern from the primary report (struct `Risk`). -/
structure Risk where
  name : Option String
  level : Option String
  description : Option String
  score : Option Int
  value : Option String
deriving Repr, DecidableEq

/-- One wallet among the ranked largest holders (struct `TopHolder`). -/
structure TopHolder where
  address : String
  pct : Rat
  insider : Bool
  maker_token_tags : List String
  tags : List String
deriving Repr, DecidableEq

/-- The unified screening record (struct `TokenScreenData`). -/
structure TokenScreenData where
  mint : String
  score : Option Int
  score_normalised : Option Int
  top_holder_pct : Option Rat
  total_holders : Nat
  creator : Option String
  creator_balance : Option Nat
  risks : List Risk
  lp_locked_pct : Option Rat
  total_lp_providers : Nat
  graph_insiders_detected : Nat
  rugged : Option Bool
  price : Option Rat
  market_cap : Option Rat
  mc_per_holder : Option Rat
  fresh_wallet_count : Option Nat
  insider_count : Option Nat
  bluechip_owner_count : Option Nat
  bundler_count : Option Nat
  dex_bot_count : Option Nat
  sniper_count : Option Nat
  dev_count : Option Nat
  insiders_pct : Option Rat
  bluechip_pct : Option Rat
  bundler_pct : Option Rat
  fresh_ratio : Option Rat
  bundled_ratio : Option Rat
  bundler_supply_pct : Option Rat
  bundler_holder_ratio : Option Rat
  top_holders : List TopHolder
deriving Repr, DecidableEq

/-- Models `TokenScreenData::default()` (the derived `Default`). -/
def defaultTokenScreenData : TokenScreenData where
  mint := ""
  score := none
  score_normalised := none
  top_holder_pct := none
  total_holders := 0
  creator := none
  creator_balance := none
  risks := []
  lp_locked_pct := none
  total_lp_providers := 0
  graph_insiders_detected := 0
  rugged := none
  price := none
  market_cap := none
  mc_per_holder := none
  fresh_wallet_count := none
  insider_count := none
  bluechip_owner_count := none
  bundler_count := none
  dex_bot_count := none
  sniper_count := none
  dev_count := none
  insiders_pct := none
  bluechip_pct := none
  bundler_pct := none
  fresh_ratio := none
  bundled_ratio := none
  bundler_supply_pct := none
  bundler_holder_ratio := none
  top_holders := []

/-- Models Rust `n as i32` for `n : u64` (two's-complement wrap). -/
def wrap_i32 (n : Nat) : Int :=
  if n % 2 ^ 32 < 2 ^ 31 then (n % 2 ^ 32 : Nat) else (n % 2 ^ 32 : Nat) - 2 ^ 32

/-- Models `parse_risk`. -/
def parse_risk (v : Json) : Risk where
  name := (v.get ("name")).bind Json.as_str
  level := (v.get ("level")).bind Json.as_str
  description := (v.get ("description")).bind Json.as_str
  score := (v.get ("score")).bind Json.as_i64
  value := (v.get ("value")).bind Json.as_str

/-- Models `parse_rugcheck`. -/
def parse_rugcheck (mint : String) (json : Json) : TokenScreenData :=
  let total_holders := ((json.get ("totalHolders")).bind Json.as_u64).getD 0
  let top_holder_pct :=
    (((json.get ("topHolders")).bind Json.as_array).bind List.head?).bind
      (fun h => (h.get ("pct")).bind Json.as_f64)
  let risks := (((json.get ("risks")).bind Json.as_array).map
      (fun a => a.map parse_risk)).getD []
  let lp_locked_pct :=
    (((((json.get ("markets")).bind Json.as_array).bind List.head?).bind
      (fun m => m.get ("lp"))).bind (fun lp => lp.get ("lpLockedPct"))).bind Json.as_f64
  let price := (json.get ("price")).bind Json.as_f64
  let supply := ((json.get ("token")).bind (fun t => t.get ("supply"))).bind Json.as_u64
  let decimals := (((json.get ("token")).bind (fun t => t.get ("decimals"))).bind
      Json.as_u64).getD 6
  let market_cap := price.bind
      (fun p => supply.map (fun s => p * ((s : Rat) / (10 : Rat) ^ wrap_i32 decimals)))
  let mc_per_holder := market_cap.map (fun mc => mc / ((max total_holders 1 : Nat) : Rat))
  { defaultTokenScreenData with
    mint := mint
    score := (json.get ("score")).bind Json.as_i64
    score_normalised := (json.get ("score_normalised")).bind Json.as_i64
    top_holder_pct := top_holder_pct
    total_holders := total_holders
    creator := ((json.get ("creator")).bind Json.as_str)
    creator_balance := (json.get ("creatorBalance")).bind Json.as_u64
    risks := risks
    lp_locked_pct := lp_locked_pct
    total_lp_providers := ((json.get ("totalLPProviders")).bind Json.as_u64).getD 0
    graph_insiders_detected := ((json.get ("graphInsidersDetected")).bind Json.as_u64).getD 0
    rugged := (json.get ("rugged")).bind Json.as_bool
    price := price
    market_cap := market_cap
    mc_per_holder := mc_per_holder }

/-- Models `merge_gmgn_holder_stat`: state-passing form of the in-place
mutation (the Rust function mutates `data` behind `&mut`). -/
def merge_gmgn_holder_stat (data : TokenScreenData) (json : Json) : TokenScreenData :=
  match json.get ("data") with
  | none => data
  | some d =>
    let fresh_wallet_count := (d.get ("fresh_wallet_count")).bind Json.as_u64
    let insider_count := (d.get ("insider_count")).bind Json.as_u64
    let bluechip_owner_count := (d.get ("bluechip_owner_count")).bind Json.as_u64
    let bundler_count := (d.get ("bundler_count")).bind Json.as_u64
    let dex_bot_count := (d.get ("dex_bot_count")).bind Json.as_u64
    let sniper_count := (d.get ("sniper_count")).bind Json.as_u64
    let dev_count := (d.get ("dev_count")).bind Json.as_u64
    let base := { data with
      fresh_wallet_count := fresh_wallet_count
      insider_count := insider_count
      bluechip_owner_count := bluechip_owner_count
      bundler_count := bundler_count
      dex_bot_count := dex_bot_count
      sniper_count := sniper_count
      dev_count := dev_count }
    let total : Rat := (data.total_holders : Nat)
    if 0 < total then
      { base with
        insiders_pct := insider_count.map (fun (c : Nat) => ((c : Rat) / total) * 100)
        bluechip_pct := bluechip_owner_count.map (fun (c : Nat) => ((c : Rat) / total) * 100)
        bundler_pct := bundler_count.map (fun (c : Nat) =>
          let pct := ((c : Rat) / total) * 100
          if 100 < pct then 100 else pct)
        fresh_ratio := fresh_wallet_count.map (fun (c : Nat) => (c : Rat) / total)
        bundled_ratio := bundler_count.map (fun (c : Nat) =>
          let r := (c : Rat) / total
          if 1 < r then 1 else r) }
    else base

/-- Models Rust `str::to_lowercase` by lowercasing each character (the
tags this program matches are ASCII). -/
def strToLower (s : String) : String :=
  String.mk (s.data.map Char.toLower)

/-- Predicate of the closure `has_bundler` in `merge_gmgn_token_holders`. -/
def has_bundler (h : TopHolder) : Bool :=
  (h.maker_token_tags ++ h.tags).any (fun t => strContains (strToLower t) ("bundler"))

/-- Models the per-entry extraction inside `merge_gmgn_token_holders`. -/
def parse_top_holder (h : Json) : TopHolder where
  address := ((h.get ("address")).bind Json.as_str).getD ("")
  pct := (((h.get ("amount_percentage")).bind Json.as_f64).getD 0) * 100
  insider := ((h.get ("insider")).bind Json.as_bool).getD false
  maker_token_tags := (((h.get ("maker_token_tags")).bind Json.as_array).map
      (fun a => a.filterMap Json.as_str)).getD []
  tags := (((h.get ("tags")).bind Json.as_array).map
      (fun a => a.filterMap Json.as_str)).getD []

/-- Models `merge_gmgn_token_holders`: state-passing form of the in-place
mutation. -/
def merge_gmgn_token_holders (data : TokenScreenData) (json : Json) : TokenScreenData :=
  match ((json.get ("data")).bind (fun d => d.get ("list"))).bind Json.as_array with
  | none => data
  | some list =>
    let top_holders := list.map parse_top_holder
    let bundler_supply_pct : Rat := ((top_holders.filter has_bundler).map TopHolder.pct).sum
    let bundler_count_in_list := (top_holders.filter has_bundler).length
    let n := top_holders.length
    { data with
      top_holders := top_holders
      bundler_supply_pct := if 0 < n then some bundler_supply_pct else none
      bundler_holder_ratio :=
        if 0 < n then some ((bundler_count_in_list : Rat) / (n : Rat)) else none }

/-- Embedding of the two-valued screening outcome (enum `ScreenResult`). -/
inductive ScreenResult where
  | Pass
  | Fail
deriving Repr, DecidableEq

/-- Models the constant `CRITICAL_RISK_NAMES`. -/
def CRITICAL_RISK_NAMES : List String :=
  ["Top holder concentration", "Creator has rugged", "Creator sold", "Honeypot"]

/-- Models the constant `DESIRABLE_HOLDER_TAGS`. -/
def DESIRABLE_HOLDER_TAGS : List String :=
  ["bundler", "bluechip", "whale", "axiom"]

/-- Models the constant `WARNING_THRESHOLD`. -/
def WARNING_THRESHOLD : Nat := 2

/-- The test `CRITICAL_RISK_NAMES.iter().any(|c| name.contains(c))` used at
both occurrences in `evaluate`. -/
def isCriticalName (name : String) : Bool :=
  CRITICAL_RISK_NAMES.any (fun c => strContains name c)

/-- A risk counts as critical when its name is present and matches the
critical-name list (the `if let Some(ref name)` pattern in `evaluate`). -/
def isCriticalRisk (r : Risk) : Bool :=
  match r.name with
  | some name => isCriticalName name
  | none => false

/-- Models Rust fixed-decimal float display with `d` decimals over the
rational embedding (nearest multiple of `10 ^ -d`, ties rounded up; no
claim depends on the tie-breaking of the display rounding). -/
def fmtFixed (d : Nat) (q : Rat) : String :=
  let m : Int := round (q * (10 : Rat) ^ d)
  let n := m.natAbs
  let p := 10 ^ d
  let fracDigits := toString (n % p)
  let padded := String.mk (List.replicate (d - fracDigits.length) (Char.ofNat 48)) ++ fracDigits
  (if m < 0 then "-" else "") ++ toString (n / p) ++ (if d = 0 then "" else "." ++ padded)

/-- Reason segment of the `score_normalised > 20` hard check. -/
def hardScore (data : TokenScreenData) : List String :=
  match data.score_normalised with
  | some score =>
    if 20 < score then ["HARD: score_normalised " ++ toString score ++ " > 20"] else []
  | none => []

/-- Reason segment of the `top_holder_pct > 10` hard check. -/
def hardTopHolderPct (data : TokenScreenData) : List String :=
  match data.top_holder_pct with
  | some pct =>
    if 10 < pct then ["HARD: top_holder_pct " ++ fmtFixed 1 pct ++ "% > 10%"] else []
  | none => []

/-- Reason segment of the `total_holders < 500` hard check. -/
def hardHoldersLow (data : TokenScreenData) : List String :=
  if data.total_holders < 500 then
    ["HARD: total_holders " ++ toString data.total_holders ++ " < 500 (too few for new coin)"]
  else []

/-- Reason segment of the `total_holders > 3000` hard check. -/
def hardHoldersHigh (data : TokenScreenData) : List String :=
  if 3000 < data.total_holders then
    ["HARD: total_holders " ++ toString data.total_holders ++ " > 3000 (outside target range)"]
  else []

/-- Reason segment of the `insiders_pct > 5` hard check. -/
def hardInsidersPct (data : TokenScreenData) : List String :=
  match data.insiders_pct with
  | some pct =>
    if 5 < pct then ["HARD: insiders_pct " ++ fmtFixed 1 pct ++ "% > 5%"] else []
  | none => []

/-- Reason segment of the bundler hard check; the effective value prefers
`bundler_supply_pct` over `bundler_pct`, as in the source. -/
def hardBundlerPct (data : TokenScreenData) : List String :=
  match data.bundler_supply_pct.or data.bundler_pct with
  | some pct =>
    if 30 < pct then ["HARD: bundler_pct " ++ fmtFixed 1 pct ++ "% > 30%"] else []
  | none => []

/-- Reason segment of the `bluechip_pct < 0.5` hard check. -/
def hardBluechipPct (data : TokenScreenData) : List String :=
  match data.bluechip_pct with
  | some pct =>
    if pct < 1 / 2 then ["HARD: bluechip_pct " ++ fmtFixed 2 pct ++ "% < 0.5%"] else []
  | none => []

/-- Reason segment of the `fresh_ratio > 0.4` hard check. -/
def hardFreshRatio (data : TokenScreenData) : List String :=
  match data.fresh_ratio with
  | some r =>
    if 2 / 5 < r then ["HARD: fresh_ratio " ++ fmtFixed 2 r ++ " > 0.4"] else []
  | none => []

/-- Reason segment of the bundled-ratio hard check; the effective value
prefers `bundler_holder_ratio` over `bundled_ratio`, as in the source. -/
def hardBundledRatio (data : TokenScreenData) : List String :=
  match data.bundler_holder_ratio.or data.bundled_ratio with
  | some r =>
    if 2 / 5 < r then ["HARD: bundled_ratio " ++ fmtFixed 2 r ++ " > 0.4"] else []
  | none => []

/-- Reason segment of the critical-risk hard check: one reason per risk
whose (present) name matches the critical-name list. -/
def hardCriticalRisks (data : TokenScreenData) : List String :=
  data.risks.filterMap (fun r =>
    match r.name with
    | some name =>
      if isCriticalName name then some ("HARD: critical risk \x27" ++ name ++ "\x27") else none
    | none => none)

/-- Reason segment of the `rugged == Some(true)` hard check. -/
def hardRugged (data : TokenScreenData) : List String :=
  if data.rugged = some true then ["HARD: token marked as rugged"] else []

/-- The `has_desirable` scan over the first ten top holders in `evaluate`. -/
def hasDesirable (data : TokenScreenData) : Bool :=
  (data.top_holders.take 10).any (fun h =>
    (h.maker_token_tags ++ h.tags).any (fun t =>
      DESIRABLE_HOLDER_TAGS.any (fun d => strContains t d)))

/-- Reason segment of the "too clean" hard check. -/
def hardTooClean (data : TokenScreenData) : List String :=
  if !data.top_holders.isEmpty && !hasDesirable data then
    ["HARD: top holders \x27too clean\x27 (no bundler/bluechip/whale/axiom)"]
  else []

/-- All hard-fail reasons, in the push order of `evaluate`. -/
def hardReasons (data : TokenScreenData) : List String :=
  hardScore data ++ hardTopHolderPct data ++ hardHoldersLow data ++ hardHoldersHigh data ++
  hardInsidersPct data ++ hardBundlerPct data ++ hardBluechipPct data ++ hardFreshRatio data ++
  hardBundledRatio data ++ hardCriticalRisks data ++ hardRugged data ++ hardTooClean data

/-- Reason segment of the `score_normalised in 10..=20` warning. -/
def warnScore (data : TokenScreenData) : List String :=
  match data.score_normalised with
  | some score =>
    if 10 ≤ score ∧ score ≤ 20 then
      ["WARN: score_normalised " ++ toString score ++ " in 10-20 (elevated)"]
    else []
  | none => []

/-- Reason segment of the `total_lp_providers < 5` warning. -/
def warnLpProviders (data : TokenScreenData) : List String :=
  if data.total_lp_providers < 5 then
    ["WARN: total_lp_providers " ++ toString data.total_lp_providers ++ " < 5"]
  else []

/-- Reason segment of the non-critical-risk warnings: one reason per risk
whose (present) name does not match the critical-name list; a risk with an
absent name is skipped by the `if let Some(ref name)` pattern. -/
def warnRisks (data : TokenScreenData) : List String :=
  data.risks.filterMap (fun r =>
    match r.name with
    | some name =>
      if isCriticalName name then none else some ("WARN: risk \x27" ++ name ++ "\x27")
    | none => none)

/-- Reason segment of the `fresh_wallet_count < 100` warning. -/
def warnFreshWallet (data : TokenScreenData) : List String :=
  match data.fresh_wallet_count with
  | some c => if c < 100 then ["WARN: fresh_wallet_count " ++ toString c ++ " < 100"] else []
  | none => []

/-- Reason segment of the `bundler_count < 100` warning. -/
def warnBundlerCount (data : TokenScreenData) : List String :=
  match data.bundler_count with
  | some c => if c < 100 then ["WARN: bundler_count " ++ toString c ++ " < 100"] else []
  | none => []

/-- All warning reasons, in the push order of `evaluate`; its length is the
`warn_count` of the source (each push is paired with one increment). -/
def warnReasons (data : TokenScreenData) : List String :=
  warnScore data ++ warnLpProviders data ++ warnRisks data ++
  warnFreshWallet data ++ warnBundlerCount data

/-- Models `evaluate`. -/
def evaluate (data : TokenScreenData) : ScreenResult × List String :=
  let reasons := hardReasons data
  if reasons.isEmpty then
    let warns := warnReasons data
    if WARNING_THRESHOLD ≤ warns.length then
      (ScreenResult.Fail,
        ("FAIL: " ++ toString warns.length ++ " warnings (threshold " ++
          toString WARNING_THRESHOLD ++ ")") :: warns)
    else (ScreenResult.Pass, warns)
  else (ScreenResult.Fail, reasons)

/-- Condition of the `score_normalised > 20` hard check. -/
def scoreTrigger (data : TokenScreenData) : Bool :=
  match data.score_normalised with
  | some score => decide (20 < score)
  | none => false

/-- Condition of the `top_holder_pct > 10` hard check. -/
def topHolderTrigger (data : TokenScreenData) : Bool :=
  match data.top_holder_pct with
  | some pct => decide (10 < pct)
  | none => false

/-- Condition of the `total_holders < 500` hard check. -/
def holdersLowTrigger (data : TokenScreenData) : Bool :=
  decide (data.total_holders < 500)

/-- Condition of the `total_holders > 3000` hard check. -/
def holdersHighTrigger (data : TokenScreenData) : Bool :=
  decide (3000 < data.total_holders)

/-- Condition of the `insiders_pct > 5` hard check. -/
def insidersTrigger (data : TokenScreenData) : Bool :=
  match data.insiders_pct with
  | some pct => decide (5 < pct)
  | none => false

/-- Condition of the bundler hard check (effective value > 30). -/
def bundlerTrigger (data : TokenScreenData) : Bool :=
  match data.bundler_supply_pct.or data.bundler_pct with
  | some pct => decide (30 < pct)
  | none => false

/-- Condition of the `bluechip_pct < 0.5` hard check. -/
def bluechipTrigger (data : TokenScreenData) : Bool :=
  match data.bluechip_pct with
  | some pct => decide (pct < 1 / 2)
  | none => false

/-- Condition of the `fresh_ratio > 0.4` hard check. -/
def freshTrigger (data : TokenScreenData) : Bool :=
  match data.fresh_ratio with
  | some r => decide (2 / 5 < r)
  | none => false

/-- Condition of the bundled-ratio hard check (effective value > 0.4). -/
def bundledTrigger (data : TokenScreenData) : Bool :=
  match data.bundler_holder_ratio.or data.bundled_ratio with
  | some r => decide (2 / 5 < r)
  | none => false

/-- Condition of the `rugged == Some(true)` hard check. -/
def ruggedTrigger (data : TokenScreenData) : Bool :=
  decide (data.rugged = some true)

/-- Condition of the "too clean" hard check. -/
def tooCleanTrigger (data : TokenScreenData) : Bool :=
  !data.top_holders.isEmpty && !hasDesirable data

/-- Disjunction of all hard-fail conditions of Step 1. -/
def hardTrigger (data : TokenScreenData) : Bool :=
  scoreTrigger data || topHolderTrigger data || holdersLowTrigger data ||
  holdersHighTrigger data || insidersTrigger data || bundlerTrigger data ||
  bluechipTrigger data || freshTrigger data || bundledTrigger data ||
  data.risks.any isCriticalRisk || ruggedTrigger data || tooCleanTrigger data

lemma hardScore_length (data : TokenScreenData) :
    (hardScore data).length = if scoreTrigger data then 1 else 0 := by
  unfold hardScore scoreTrigger
  cases data.score_normalised with
  | none => simp
  | some v => by_cases h : 20 < v <;> simp [h]

lemma hardTopHolderPct_length (data : TokenScreenData) :
    (hardTopHolderPct data).length = if topHolderTrigger data then 1 else 0 := by
  unfold hardTopHolderPct topHolderTrigger
  cases data.top_holder_pct with
  | none => simp
  | some v => by_cases h : 10 < v <;> simp [h]

lemma hardHoldersLow_length (data : TokenScreenData) :
    (hardHoldersLow data).length = if holdersLowTrigger data then 1 else 0 := by
  unfold hardHoldersLow holdersLowTrigger
  by_cases h : data.total_holders < 500 <;> simp [h]

lemma hardHoldersHigh_length (data : TokenScreenData) :
    (hardHoldersHigh data).length = if holdersHighTrigger data then 1 else 0 := by
  unfold hardHoldersHigh holdersHighTrigger
  by_cases h : 3000 < data.total_holders <;> simp [h]

lemma hardInsidersPct_length (data : TokenScreenData) :
    (hardInsidersPct data).length = if insidersTrigger data then 1 else 0 := by
  unfold hardInsidersPct insidersTrigger
  cases data.insiders_pct with
  | none => simp
  | some v => by_cases h : 5 < v <;> simp [h]

lemma hardBundlerPct_length (data : TokenScreenData) :
    (hardBundlerPct data).length = if bundlerTrigger data then 1 else 0 := by
  unfold hardBundlerPct bundlerTrigger
  cases data.bundler_supply_pct.or data.bundler_pct with
  | none => simp
  | some v => by_cases h : 30 < v <;> simp [h]

lemma hardBluechipPct_length (data : TokenScreenData) :
    (hardBluechipPct data).length = if bluechipTrigger data then 1 else 0 := by
  unfold hardBluechipPct bluechipTrigger
  cases data.bluechip_pct with
  | none => simp
  | some v => by_cases h : v < 1 / 2 <;> rw [one_div] at h <;> simp [h]

lemma hardFreshRatio_length (data : TokenScreenData) :
    (hardFreshRatio data).length = if freshTrigger data then 1 else 0 := by
  unfold hardFreshRatio freshTrigger
  cases data.fresh_ratio with
  | none => simp
  | some v => by_cases h : 2 / 5 < v <;> simp [h]

lemma hardBundledRatio_length (data : TokenScreenData) :
    (hardBundledRatio data).length = if bundledTrigger data then 1 else 0 := by
  unfold hardBundledRatio bundledTrigger
  cases data.bundler_holder_ratio.or data.bundled_ratio with
  | none => simp
  | some v => by_cases h : 2 / 5 < v <;> simp [h]

lemma hardRugged_length (data : TokenScreenData) :
    (hardRugged data).length = if ruggedTrigger data then 1 else 0 := by
  unfold hardRugged ruggedTrigger
  by_cases h : data.rugged = some true <;> simp [h]

lemma hardTooClean_length (data : TokenScreenData) :
    (hardTooClean data).length = if tooCleanTrigger data then 1 else 0 := by
  unfold hardTooClean tooCleanTrigger
  by_cases h : (!data.top_holders.isEmpty && !hasDesirable data) = true <;> simp [h]

lemma length_filterMap_eq_countP {α β : Type} (f : α → Option β) (p : α → Bool)
    (h : ∀ a, (f a).isSome = p a) (l : List α) :
    (l.filterMap f).length = l.countP p := by
  induction l with
  | nil => simp
  | cons a l ih =>
    rw [List.filterMap_cons, List.countP_cons]
    cases hx : f a
    · have : p a = false := by rw [← h a, hx]; rfl
      simp [this, ih]
    · have : p a = true := by rw [← h a, hx]; rfl
      simp [this, ih]

lemma hardCriticalRisks_length (data : TokenScreenData) :
    (hardCriticalRisks data).length = data.risks.countP isCriticalRisk := by
  unfold hardCriticalRisks
  refine length_filterMap_eq_countP _ _ (fun r => ?_) data.risks
  unfold isCriticalRisk
  cases r.name
  · rfl
  · dsimp only
    split <;> simp_all

lemma hardReasons_length (data : TokenScreenData) :
    (hardReasons data).length =
      (if scoreTrigger data then 1 else 0) + (if topHolderTrigger data then 1 else 0) +
      (if holdersLowTrigger data then 1 else 0) + (if holdersHighTrigger data then 1 else 0) +
      (if insidersTrigger data then 1 else 0) + (if bundlerTrigger data then 1 else 0) +
      (if bluechipTrigger data then 1 else 0) + (if freshTrigger data then 1 else 0) +
      (if bundledTrigger data then 1 else 0) + data.risks.countP isCriticalRisk +
      (if ruggedTrigger data then 1 else 0) + (if tooCleanTrigger data then 1 else 0) := by
  unfold hardReasons
  simp only [List.length_append]
  rw [hardScore_length, hardTopHolderPct_length, hardHoldersLow_length,
    hardHoldersHigh_length, hardInsidersPct_length, hardBundlerPct_length,
    hardBluechipPct_length, hardFreshRatio_length, hardBundledRatio_length,
    hardCriticalRisks_length, hardRugged_length, hardTooClean_length]

lemma ite_one_zero_eq_zero (t : Bool) : ((if t then 1 else 0 : Nat) = 0) ↔ t = false := by
  cases t <;> simp

lemma countP_eq_zero_iff_any {α : Type} (p : α → Bool) (l : List α) :
    l.countP p = 0 ↔ l.any p = false := by
  simp [List.countP_eq_zero, List.any_eq_false]

lemma hardReasons_eq_nil_iff (data : TokenScreenData) :
    hardReasons data = [] ↔ hardTrigger data = false := by
  rw [← List.length_eq_zero, hardReasons_length]
  unfold hardTrigger
  simp only [Nat.add_eq_zero, ite_one_zero_eq_zero, countP_eq_zero_iff_any,
    Bool.or_eq_false_iff]

lemma evaluate_of_hard (data : TokenScreenData) (h : hardReasons data ≠ []) :
    evaluate data = (ScreenResult.Fail, hardReasons data) := by
  unfold evaluate
  simp [h]

lemma evaluate_of_no_hard_many_warns (data : TokenScreenData) (h : hardReasons data = [])
    (h2 : WARNING_THRESHOLD ≤ (warnReasons data).length) :
    evaluate data = (ScreenResult.Fail,
      ("FAIL: " ++ toString (warnReasons data).length ++ " warnings (threshold " ++
        toString WARNING_THRESHOLD ++ ")") :: warnReasons data) := by
  unfold evaluate
  simp [h, h2]

lemma evaluate_of_no_hard_few_warns (data : TokenScreenData) (h : hardReasons data = [])
    (h2 : (warnReasons data).length < WARNING_THRESHOLD) :
    evaluate data = (ScreenResult.Pass, warnReasons data) := by
  unfold evaluate
  simp [h, Nat.not_le.mpr h2]

lemma strStartsWith_append (p a b : String) (h : strStartsWith p a = true) :
    strStartsWith p (a ++ b) = true := by
  unfold strStartsWith at *
  rw [String.data_append]
  rw [ List.isPrefixOf_iff_prefix] at *
  exact h.trans (List.prefix_append _ _)

lemma strContains_infix_iff (s pat : String) :
    strContains s pat = true ↔ pat.data <:+: s.data := by
  unfold strContains
  rw [List.any_eq_true]
  constructor
  · rintro ⟨t, ht, hp⟩
    rw [List.mem_tails] at ht
    rw [ List.isPrefixOf_iff_prefix] at hp
    exact List.infix_iff_prefix_suffix.mpr ⟨t, hp, ht⟩
  · intro h
    rcases List.infix_iff_prefix_suffix.mp h with ⟨t, hp, ht⟩
    exact ⟨t, (List.mem_tails _ _).mpr ht, List.isPrefixOf_iff_prefix.mpr hp⟩

lemma strContains_append_left (a b pat : String) (h : strContains a pat = true) :
    strContains (a ++ b) pat = true := by
  rw [strContains_infix_iff] at *
  rw [String.data_append]
  exact h.trans (List.prefix_append _ _).isInfix

lemma mem_hardScore (data : TokenScreenData) (r : String) (h : r ∈ hardScore data) :
    strStartsWith ("HARD:") r = true := by
  unfold hardScore at h
  cases hs : data.score_normalised with
  | none => rw [hs] at h; simp at h
  | some v =>
    rw [hs] at h
    dsimp only at h
    by_cases hv : 20 < v
    · rw [if_pos hv] at h
      simp only [List.mem_singleton] at h
      subst h
      exact strStartsWith_append _ _ _ (strStartsWith_append _ _ _ (by decide))
    · rw [if_neg hv] at h; simp at h

lemma mem_hardTopHolderPct (data : TokenScreenData) (r : String)
    (h : r ∈ hardTopHolderPct data) : strStartsWith ("HARD:") r = true := by
  unfold hardTopHolderPct at h
  cases hs : data.top_holder_pct with
  | none => rw [hs] at h; simp at h
  | some v =>
    rw [hs] at h
    dsimp only at h
    by_cases hv : 10 < v
    · rw [if_pos hv] at h
      simp only [List.mem_singleton] at h
      subst h
      exact strStartsWith_append _ _ _ (strStartsWith_append _ _ _ (by decide))
    · rw [if_neg hv] at h; simp at h

lemma mem_hardHoldersLow (data : TokenScreenData) (r : String)
    (h : r ∈ hardHoldersLow data) : strStartsWith ("HARD:") r = true := by
  unfold hardHoldersLow at h
  by_cases hv : data.total_holders < 500
  · rw [if_pos hv] at h
    simp only [List.mem_singleton] at h
    subst h
    exact strStartsWith_append _ _ _ (strStartsWith_append _ _ _ (by decide))
  · rw [if_neg hv] at h; simp at h

lemma mem_hardHoldersHigh (data : TokenScreenData) (r : String)
    (h : r ∈ hardHoldersHigh data) : strStartsWith ("HARD:") r = true := by
  unfold hardHoldersHigh at h
  by_cases hv : 3000 < data.total_holders
  · rw [if_pos hv] at h
    simp only [List.mem_singleton] at h
    subst h
    exact strStartsWith_append _ _ _ (strStartsWith_append _ _ _ (by decide))
  · rw [if_neg hv] at h; simp at h

lemma mem_hardInsidersPct (data : TokenScreenData) (r : String)
    (h : r ∈ hardInsidersPct data) : strStartsWith ("HARD:") r = true := by
  unfold hardInsidersPct at h
  cases hs : data.insiders_pct with
  | none => rw [hs] at h; simp at h
  | some v =>
    rw [hs] at h
    dsimp only at h
    by_cases hv : 5 < v
    · rw [if_pos hv] at h
      simp only [List.mem_singleton] at h
      subst h
      exact strStartsWith_append _ _ _ (strStartsWith_append _ _ _ (by decide))
    · rw [if_neg hv] at h; simp at h

lemma mem_hardBundlerPct (data : TokenScreenData) (r : String)
    (h : r ∈ hardBundlerPct data) : strStartsWith ("HARD:") r = true := by
  unfold hardBundlerPct at h
  cases hs : data.bundler_supply_pct.or data.bundler_pct with
  | none => rw [hs] at h; simp at h
  | some v =>
    rw [hs] at h
    dsimp only at h
    by_cases hv : 30 < v
    · rw [if_pos hv] at h
      simp only [List.mem_singleton] at h
      subst h
      exact strStartsWith_append _ _ _ (strStartsWith_append _ _ _ (by decide))
    · rw [if_neg hv] at h; simp at h

lemma mem_hardBluechipPct (data : TokenScreenData) (r : String)
    (h : r ∈ hardBluechipPct data) : strStartsWith ("HARD:") r = true := by
  unfold hardBluechipPct at h
  cases hs : data.bluechip_pct with
  | none => rw [hs] at h; simp at h
  | some v =>
    rw [hs] at h
    dsimp only at h
    by_cases hv : v < 1 / 2
    · rw [if_pos hv] at h
      simp only [List.mem_singleton] at h
      subst h
      exact strStartsWith_append _ _ _ (strStartsWith_append _ _ _ (by decide))
    · rw [if_neg hv] at h; simp at h

lemma mem_hardFreshRatio (data : TokenScreenData) (r : String)
    (h : r ∈ hardFreshRatio data) : strStartsWith ("HARD:") r = true := by
  unfold hardFreshRatio at h
  cases hs : data.fresh_ratio with
  | none => rw [hs] at h; simp at h
  | some v =>
    rw [hs] at h
    dsimp only at h
    by_cases hv : 2 / 5 < v
    · rw [if_pos hv] at h
      simp only [List.mem_singleton] at h
      subst h
      exact strStartsWith_append _ _ _ (strStartsWith_append _ _ _ (by decide))
    · rw [if_neg hv] at h; simp at h

lemma mem_hardBundledRatio (data : TokenScreenData) (r : String)
    (h : r ∈ hardBundledRatio data) : strStartsWith ("HARD:") r = true := by
  unfold hardBundledRatio at h
  cases hs : data.bundler_holder_ratio.or data.bundled_ratio with
  | none => rw [hs] at h; simp at h
  | some v =>
    rw [hs] at h
    dsimp only at h
    by_cases hv : 2 / 5 < v
    · rw [if_pos hv] at h
      simp only [List.mem_singleton] at h
      subst h
      exact strStartsWith_append _ _ _ (strStartsWith_append _ _ _ (by decide))
    · rw [if_neg hv] at h; simp at h

lemma mem_hardCriticalRisks (data : TokenScreenData) (r : String)
    (h : r ∈ hardCriticalRisks data) : strStartsWith ("HARD:") r = true := by
  unfold hardCriticalRisks at h
  rw [List.mem_filterMap] at h
  rcases h with ⟨risk, _, hf⟩
  cases hn : risk.name with
  | none => rw [hn] at hf; simp at hf
  | some n =>
    rw [hn] at hf
    dsimp only at hf
    by_cases hc : isCriticalName n
    · rw [if_pos hc] at hf
      injection hf with hf
      subst hf
      exact strStartsWith_append _ _ _ (strStartsWith_append _ _ _ (by decide))
    · rw [if_neg hc] at hf; exact absurd hf (by simp)

lemma mem_hardRugged (data : TokenScreenData) (r : String)
    (h : r ∈ hardRugged data) : strStartsWith ("HARD:") r = true := by
  unfold hardRugged at h
  by_cases hv : data.rugged = some true
  · rw [if_pos hv] at h
    simp only [List.mem_singleton] at h
    subst h
    decide
  · rw [if_neg hv] at h; simp at h

lemma mem_hardTooClean (data : TokenScreenData) (r : String)
    (h : r ∈ hardTooClean data) : strStartsWith ("HARD:") r = true := by
  unfold hardTooClean at h
  by_cases hv : (!data.top_holders.isEmpty && !hasDesirable data) = true
  · rw [if_pos hv] at h
    simp only [List.mem_singleton] at h
    subst h
    decide
  · rw [if_neg hv] at h; simp at h

lemma mem_hardReasons_startsWith (data : TokenScreenData) (r : String)
    (h : r ∈ hardReasons data) : strStartsWith ("HARD:") r = true := by
  unfold hardReasons at h
  simp only [List.mem_append] at h
  rcases h with ((((((((((h | h) | h) | h) | h) | h) | h) | h) | h) | h) | h) | h
  · exact mem_hardScore data r h
  · exact mem_hardTopHolderPct data r h
  · exact mem_hardHoldersLow data r h
  · exact mem_hardHoldersHigh data r h
  · exact mem_hardInsidersPct data r h
  · exact mem_hardBundlerPct data r h
  · exact mem_hardBluechipPct data r h
  · exact mem_hardFreshRatio data r h
  · exact mem_hardBundledRatio data r h
  · exact mem_hardCriticalRisks data r h
  · exact mem_hardRugged data r h
  · exact mem_hardTooClean data r h

lemma mem_warnScore (data : TokenScreenData) (r : String) (h : r ∈ warnScore data) :
    strStartsWith ("WARN:") r = true := by
  unfold warnScore at h
  cases hs : data.score_normalised with
  | none => rw [hs] at h; simp at h
  | some v =>
    rw [hs] at h
    dsimp only at h
    by_cases hv : 10 ≤ v ∧ v ≤ 20
    · rw [if_pos hv] at h
      simp only [List.mem_singleton] at h
      subst h
      exact strStartsWith_append _ _ _ (strStartsWith_append _ _ _ (by decide))
    · rw [if_neg hv] at h; simp at h

lemma mem_warnLpProviders (data : TokenScreenData) (r : String)
    (h : r ∈ warnLpProviders data) : strStartsWith ("WARN:") r = true := by
  unfold warnLpProviders at h
  by_cases hv : data.total_lp_providers < 5
  · rw [if_pos hv] at h
    simp only [List.mem_singleton] at h
    subst h
    exact strStartsWith_append _ _ _ (strStartsWith_append _ _ _ (by decide))
  · rw [if_neg hv] at h; simp at h

lemma mem_warnRisks (data : TokenScreenData) (r : String) (h : r ∈ warnRisks data) :
    strStartsWith ("WARN:") r = true := by
  unfold warnRisks at h
  rw [List.mem_filterMap] at h
  rcases h with ⟨risk, _, hf⟩
  cases hn : risk.name with
  | none => rw [hn] at hf; simp at hf
  | some n =>
    rw [hn] at hf
    dsimp only at hf
    by_cases hc : isCriticalName n
    · rw [if_pos hc] at hf; exact absurd hf (by simp)
    · rw [if_neg hc] at hf
      injection hf with hf
      subst hf
      exact strStartsWith_append _ _ _ (strStartsWith_append _ _ _ (by decide))

lemma mem_warnFreshWallet (data : TokenScreenData) (r : String)
    (h : r ∈ warnFreshWallet data) : strStartsWith ("WARN:") r = true := by
  unfold warnFreshWallet at h
  cases hs : data.fresh_wallet_count with
  | none => rw [hs] at h; simp at h
  | some v =>
    rw [hs] at h
    dsimp only at h
    by_cases hv : v < 100
    · rw [if_pos hv] at h
      simp only [List.mem_singleton] at h
      subst h
      exact strStartsWith_append _ _ _ (strStartsWith_append _ _ _ (by decide))
    · rw [if_neg hv] at h; simp at h

lemma mem_warnBundlerCount (data : TokenScreenData) (r : String)
    (h : r ∈ warnBundlerCount data) : strStartsWith ("WARN:") r = true := by
  unfold warnBundlerCount at h
  cases hs : data.bundler_count with
  | none => rw [hs] at h; simp at h
  | some v =>
    rw [hs] at h
    dsimp only at h
    by_cases hv : v < 100
    · rw [if_pos hv] at h
      simp only [List.mem_singleton] at h
      subst h
      exact strStartsWith_append _ _ _ (strStartsWith_append _ _ _ (by decide))
    · rw [if_neg hv] at h; simp at h

lemma mem_warnReasons_startsWith (data : TokenScreenData) (r : String)
    (h : r ∈ warnReasons data) : strStartsWith ("WARN:") r = true := by
  unfold warnReasons at h
  simp only [List.mem_append] at h
  rcases h with (((h | h) | h) | h) | h
  · exact mem_warnScore data r h
  · exact mem_warnLpProviders data r h
  · exact mem_warnRisks data r h
  · exact mem_warnFreshWallet data r h
  · exact mem_warnBundlerCount data r h

lemma hard_not_warn (r : String) (h : strStartsWith ("HARD:") r = true) :
    strStartsWith ("WARN:") r = false := by
  unfold strStartsWith at *
  rw [ List.isPrefixOf_iff_prefix] at h
  rw [← Bool.not_eq_true, List.isPrefixOf_iff_prefix]
  intro hw
  rcases List.prefix_or_prefix_of_prefix h hw with hp | hp <;>
    exact absurd ( List.isPrefixOf_iff_prefix.mpr hp) (by decide)

/-- C1: for every record in which at least one hard-fail condition of
Step 1 holds, `evaluate` returns `Fail` together with the full list of
hard reasons: the list is the concatenation of one segment per check, each
scalar check contributes exactly one reason exactly when its condition
holds (no short-circuiting), the critical-risk check contributes exactly
one reason per critical-named risk, every reason carries the "HARD:"
prefix, and no reason carries the "WARN:" prefix (warnings are not
evaluated). -/
theorem evaluate_hard_fail_collects_all (data : TokenScreenData)
    (h : hardTrigger data = true) :
    evaluate data = (ScreenResult.Fail, hardReasons data) ∧
    hardReasons data =
      hardScore data ++ hardTopHolderPct data ++ hardHoldersLow data ++ hardHoldersHigh data ++
      hardInsidersPct data ++ hardBundlerPct data ++ hardBluechipPct data ++
      hardFreshRatio data ++ hardBundledRatio data ++ hardCriticalRisks data ++
      hardRugged data ++ hardTooClean data ∧
    (hardScore data).length = (if scoreTrigger data then 1 else 0) ∧
    (hardTopHolderPct data).length = (if topHolderTrigger data then 1 else 0) ∧
    (hardHoldersLow data).length = (if holdersLowTrigger data then 1 else 0) ∧
    (hardHoldersHigh data).length = (if holdersHighTrigger data then 1 else 0) ∧
    (hardInsidersPct data).length = (if insidersTrigger data then 1 else 0) ∧
    (hardBundlerPct data).length = (if bundlerTrigger data then 1 else 0) ∧
    (hardBluechipPct data).length = (if bluechipTrigger data then 1 else 0) ∧
    (hardFreshRatio data).length = (if freshTrigger data then 1 else 0) ∧
    (hardBundledRatio data).length = (if bundledTrigger data then 1 else 0) ∧
    (hardCriticalRisks data).length = data.risks.countP isCriticalRisk ∧
    (hardRugged data).length = (if ruggedTrigger data then 1 else 0) ∧
    (hardTooClean data).length = (if tooCleanTrigger data then 1 else 0) ∧
    (∀ r ∈ hardReasons data, strStartsWith ("HARD:") r = true) ∧
    (∀ r ∈ hardReasons data, strStartsWith ("WARN:") r = false) := by
  have hne : hardReasons data ≠ [] := by
    intro hnil
    rw [(hardReasons_eq_nil_iff data).mp hnil] at h
    exact Bool.false_ne_true h
  exact ⟨evaluate_of_hard data hne, rfl, hardScore_length data, hardTopHolderPct_length data,
    hardHoldersLow_length data, hardHoldersHigh_length data, hardInsidersPct_length data,
    hardBundlerPct_length data, hardBluechipPct_length data, hardFreshRatio_length data,
    hardBundledRatio_length data, hardCriticalRisks_length data, hardRugged_length data,
    hardTooClean_length data, fun r hr => mem_hardReasons_startsWith data r hr,
    fun r hr => hard_not_warn r (mem_hardReasons_startsWith data r hr)⟩

/-- Witness for C1 at the default record (its holder count 0 triggers the
`total_holders < 500` hard check). -/
theorem evaluate_hard_fail_collects_all_witness :
    evaluate defaultTokenScreenData = (ScreenResult.Fail, hardReasons defaultTokenScreenData) ∧
    (∀ r ∈ hardReasons defaultTokenScreenData, strStartsWith ("WARN:") r = false) := by
  have h := evaluate_hard_fail_collects_all defaultTokenScreenData (by decide)
  exact ⟨h.1, h.2.2.2.2.2.2.2.2.2.2.2.2.2.2.2⟩

/-- C2: for every record with no hard-fail condition, `evaluate` fails with
the synthesized threshold line in front of the individual "WARN:" reasons
when at least two warnings accumulated, and passes with the 0 or 1
accumulated "WARN:" reasons otherwise. -/
theorem evaluate_warning_threshold (data : TokenScreenData)
    (h : hardTrigger data = false) :
    (WARNING_THRESHOLD ≤ (warnReasons data).length →
      evaluate data = (ScreenResult.Fail,
        ("FAIL: " ++ toString (warnReasons data).length ++ " warnings (threshold " ++
          toString WARNING_THRESHOLD ++ ")") :: warnReasons data)) ∧
    ((warnReasons data).length < WARNING_THRESHOLD →
      evaluate data = (ScreenResult.Pass, warnReasons data)) ∧
    (∀ r ∈ warnReasons data, strStartsWith ("WARN:") r = true) := by
  have hnil : hardReasons data = [] := (hardReasons_eq_nil_iff data).mpr h
  exact ⟨fun h2 => evaluate_of_no_hard_many_warns data hnil h2,
    fun h2 => evaluate_of_no_hard_few_warns data hnil h2,
    fun r hr => mem_warnReasons_startsWith data r hr⟩

/-- The default record with a holder count inside the accepted range; no
hard-fail condition holds on it, and exactly one warning accumulates. -/
def passingBase : TokenScreenData :=
  { defaultTokenScreenData with total_holders := 1000 }

/-- Witness for C2 at `passingBase` (one warning, so the record passes). -/
theorem evaluate_warning_threshold_witness :
    ((warnReasons passingBase).length < WARNING_THRESHOLD →
      evaluate passingBase = (ScreenResult.Pass, warnReasons passingBase)) ∧
    (warnReasons passingBase).length < WARNING_THRESHOLD ∧
    evaluate passingBase = (ScreenResult.Pass, warnReasons passingBase) := by
  have h := evaluate_warning_threshold passingBase (by decide)
  exact ⟨h.2.1, by decide, h.2.1 (by decide)⟩

/-- C3: for every record whose normalized score is present and exceeds 20,
`evaluate` returns `Fail` and some reason contains "score_normalised". -/
theorem evaluate_score_normalised_hard_fail (data : TokenScreenData) (s : Int)
    (h1 : data.score_normalised = some s) (h2 : 20 < s) :
    (evaluate data).1 = ScreenResult.Fail ∧
    ∃ r ∈ (evaluate data).2, strContains r ("score_normalised") = true := by
  have htrig : hardTrigger data = true := by
    unfold hardTrigger scoreTrigger
    rw [h1]
    simp [h2]
  have hne : hardReasons data ≠ [] := by
    intro hnil
    rw [(hardReasons_eq_nil_iff data).mp hnil] at htrig
    exact Bool.false_ne_true htrig
  rw [evaluate_of_hard data hne]
  refine ⟨rfl, "HARD: score_normalised " ++ toString s ++ " > 20", ?_, ?_⟩
  · unfold hardReasons
    simp only [List.mem_append]
    refine Or.inl (Or.inl (Or.inl (Or.inl (Or.inl (Or.inl (Or.inl (Or.inl (Or.inl
      (Or.inl (Or.inl ?_))))))))))
    unfold hardScore
    rw [h1]
    simp [h2]
  · exact strContains_append_left _ _ _ (strContains_append_left _ _ _ (by decide))

/-- A record whose normalized score is above the hard threshold. -/
def highScoreData : TokenScreenData :=
  { defaultTokenScreenData with score_normalised := some 21 }

/-- Witness for C3 at `highScoreData`. -/
theorem evaluate_score_normalised_hard_fail_witness :
    (evaluate highScoreData).1 = ScreenResult.Fail ∧
    ∃ r ∈ (evaluate highScoreData).2, strContains r ("score_normalised") = true :=
  evaluate_score_normalised_hard_fail highScoreData 21 (by decide) (by decide)

/-- C4: when the top-holders-derived `bundler_supply_pct` is present, the
bundler hard check is evaluated only against it: the verdict and reasons of
`evaluate` do not depend on the counts-derived `bundler_pct` at all, and
the effective bundler value used by the check is `bundler_supply_pct`
(`bundler_pct` is consulted only when `bundler_supply_pct` is absent, by
the `Option::or` in the source). -/
theorem bundler_supply_pct_precedence (data : TokenScreenData) (p : Rat)
    (h : data.bundler_supply_pct = some p) :
    (∀ q : Option Rat, evaluate { data with bundler_pct := q } = evaluate data) ∧
    data.bundler_supply_pct.or data.bundler_pct = some p := by
  constructor
  · intro q
    cases data
    dsimp only at h
    subst h
    rfl
  · rw [h]
    rfl

/-- A record carrying a top-holders-derived bundler supply percentage. -/
def supplyPctData : TokenScreenData :=
  { defaultTokenScreenData with bundler_supply_pct := some 40 }

/-- Witness for C4 at `supplyPctData` with `bundler_pct` set to 0. -/
theorem bundler_supply_pct_precedence_witness :
    evaluate { supplyPctData with bundler_pct := some 0 } = evaluate supplyPctData ∧
    supplyPctData.bundler_supply_pct.or supplyPctData.bundler_pct = some 40 := by
  have h := bundler_supply_pct_precedence supplyPctData 40 (by decide)
  exact ⟨h.1 (some 0), h.2⟩

/-- C7: merging the same holder-statistics document twice yields a record
identical to merging it once (every field unchanged on the second
application). -/
theorem merge_gmgn_holder_stat_idem (data : TokenScreenData) (json : Json) :
    merge_gmgn_holder_stat (merge_gmgn_holder_stat data json) json =
      merge_gmgn_holder_stat data json := by
  cases hg : json.get ("data") with
  | none => simp [merge_gmgn_holder_stat, hg]
  | some d =>
    cases data with
    | mk m s sn thp th cr cb rk lp tlp gid rg pr mc mph fwc ic boc bc dbc snc dvc ip blp
        bp frr brr bsp bhr ths =>
      unfold merge_gmgn_holder_stat
      rw [hg]
      dsimp only
      by_cases h0 : (0 : Rat) < (th : Rat)
      · rw [if_pos h0]
        dsimp only
        rw [if_pos h0]
      · rw [if_neg h0]
        dsimp only
        rw [if_neg h0]

/-- C8: on a record whose total holder count is 0, the holder-statistics
merge records the seven raw counts extracted from the document but the
five derived ratio fields remain absent. -/
theorem merge_holder_stat_zero_total (data : TokenScreenData) (json d : Json)
    (hg : json.get ("data") = some d) (h0 : data.total_holders = 0)
    (h1 : data.insiders_pct = none) (h2 : data.bluechip_pct = none)
    (h3 : data.bundler_pct = none) (h4 : data.fresh_ratio = none)
    (h5 : data.bundled_ratio = none) :
    (merge_gmgn_holder_stat data json).fresh_wallet_count =
      (d.get ("fresh_wallet_count")).bind Json.as_u64 ∧
    (merge_gmgn_holder_stat data json).insider_count =
      (d.get ("insider_count")).bind Json.as_u64 ∧
    (merge_gmgn_holder_stat data json).bluechip_owner_count =
      (d.get ("bluechip_owner_count")).bind Json.as_u64 ∧
    (merge_gmgn_holder_stat data json).bundler_count =
      (d.get ("bundler_count")).bind Json.as_u64 ∧
    (merge_gmgn_holder_stat data json).dex_bot_count =
      (d.get ("dex_bot_count")).bind Json.as_u64 ∧
    (merge_gmgn_holder_stat data json).sniper_count =
      (d.get ("sniper_count")).bind Json.as_u64 ∧
    (merge_gmgn_holder_stat data json).dev_count =
      (d.get ("dev_count")).bind Json.as_u64 ∧
    (merge_gmgn_holder_stat data json).insiders_pct = none ∧
    (merge_gmgn_holder_stat data json).bluechip_pct = none ∧
    (merge_gmgn_holder_stat data json).bundler_pct = none ∧
    (merge_gmgn_holder_stat data json).fresh_ratio = none ∧
    (merge_gmgn_holder_stat data json).bundled_ratio = none := by
  unfold merge_gmgn_holder_stat
  rw [hg]
  dsimp only
  rw [h0]
  rw [if_neg (by norm_num)]
  exact ⟨rfl, rfl, rfl, rfl, rfl, rfl, rfl, h1, h2, h3, h4, h5⟩

/-- A holder-statistics document carrying one count. -/
def statDocWithFresh : Json :=
  Json.obj [(("data"), Json.obj [(("fresh_wallet_count"), Json.num 7)])]

/-- Witness for C8: the default record has holder count 0 and all derived
ratios absent; after the merge the extracted count is recorded and the
ratios are still absent. -/
theorem merge_holder_stat_zero_total_witness :
    (merge_gmgn_holder_stat defaultTokenScreenData statDocWithFresh).fresh_wallet_count =
      ((Json.obj [(("fresh_wallet_count"), Json.num 7)]).get ("fresh_wallet_count")).bind
        Json.as_u64 ∧
    (merge_gmgn_holder_stat defaultTokenScreenData statDocWithFresh).insiders_pct = none ∧
    (merge_gmgn_holder_stat defaultTokenScreenData statDocWithFresh).bluechip_pct = none ∧
    (merge_gmgn_holder_stat defaultTokenScreenData statDocWithFresh).bundler_pct = none ∧
    (merge_gmgn_holder_stat defaultTokenScreenData statDocWithFresh).fresh_ratio = none ∧
    (merge_gmgn_holder_stat defaultTokenScreenData statDocWithFresh).bundled_ratio = none := by
  have h := merge_holder_stat_zero_total defaultTokenScreenData statDocWithFresh
    (Json.obj [(("fresh_wallet_count"), Json.num 7)]) rfl rfl rfl rfl rfl rfl rfl
  exact ⟨h.1, h.2.2.2.2.2.2.2.1, h.2.2.2.2.2.2.2.2.1, h.2.2.2.2.2.2.2.2.2.1,
    h.2.2.2.2.2.2.2.2.2.2.1, h.2.2.2.2.2.2.2.2.2.2.2⟩

/-- C9: when the extracted top-holders list is present but empty, the
top-holders merge sets both derived bundler metrics to absent (and the
stored list to empty). -/
theorem merge_token_holders_empty_list (data : TokenScreenData) (json : Json)
    (hg : ((json.get ("data")).bind (fun d => d.get ("list"))).bind Json.as_array = some []) :
    (merge_gmgn_token_holders data json).bundler_supply_pct = none ∧
    (merge_gmgn_token_holders data json).bundler_holder_ratio = none ∧
    (merge_gmgn_token_holders data json).top_holders = [] := by
  unfold merge_gmgn_token_holders
  rw [hg]
  simp

/-- A top-holders document whose list is present but empty. -/
def emptyHoldersDoc : Json :=
  Json.obj [(("data"), Json.obj [(("list"), Json.arr [])])]

/-- Witness for C9 at `emptyHoldersDoc`. -/
theorem merge_token_holders_empty_list_witness :
    (merge_gmgn_token_holders defaultTokenScreenData emptyHoldersDoc).bundler_supply_pct =
      none ∧
    (merge_gmgn_token_holders defaultTokenScreenData emptyHoldersDoc).bundler_holder_ratio =
      none ∧
    (merge_gmgn_token_holders defaultTokenScreenData emptyHoldersDoc).top_holders = [] :=
  merge_token_holders_empty_list defaultTokenScreenData emptyHoldersDoc rfl

/-- C10: a holder-statistics document with no "data" field leaves the
record entirely unchanged. -/
theorem merge_holder_stat_missing_data (data : TokenScreenData) (json : Json)
    (hg : json.get ("data") = none) :
    merge_gmgn_holder_stat data json = data := by
  unfold merge_gmgn_holder_stat
  rw [hg]

/-- Witness for C10 at an object document without a "data" field. -/
theorem merge_holder_stat_missing_data_witness :
    (Json.obj []).get ("data") = none ∧
    merge_gmgn_holder_stat defaultTokenScreenData (Json.obj []) = defaultTokenScreenData :=
  ⟨rfl, merge_holder_stat_missing_data defaultTokenScreenData (Json.obj []) rfl⟩

/-- A risk whose name is present and does not match the critical-name
list; only these produce a warning in the risk loop of `evaluate`. -/
def isNamedNonCritical (r : Risk) : Bool :=
  match r.name with
  | some n => !(isCriticalName n)
  | none => false

lemma warnRisks_length (data : TokenScreenData) :
    (warnRisks data).length = data.risks.countP isNamedNonCritical := by
  unfold warnRisks
  refine length_filterMap_eq_countP _ _ (fun r => ?_) data.risks
  unfold isNamedNonCritical
  cases r.name
  · rfl
  · dsimp only
    split <;> simp_all

lemma warnRisks_sublist (data : TokenScreenData) :
    (warnRisks data).Sublist (warnReasons data) := by
  have h : warnRisks data <:+: warnReasons data := by
    refine ⟨warnScore data ++ warnLpProviders data,
      warnFreshWallet data ++ warnBundlerCount data, ?_⟩
    unfold warnReasons
    simp [List.append_assoc]
  exact h.sublist

/-- A risk whose every field is absent (in particular its name). -/
def namelessRisk : Risk :=
  { name := none, level := none, description := none, score := none, value := none }

/-- A record with no hard-fail condition carrying one risk without a name;
`evaluate` emits no warning for it and passes with an empty reason list,
although the risk does not match the critical-name list. -/
def namelessRiskData : TokenScreenData :=
  { defaultTokenScreenData with
    total_holders := 1000
    total_lp_providers := 5
    risks := [namelessRisk] }

/-- Counterexample to C6 as stated: the record holds exactly one risk, that
risk does not match the critical-name list (its name is absent, so it is
non-critical), yet `evaluate` returns `Pass` with an empty reason list —
the nameless risk contributed neither a warning nor a "WARN:" reason. -/
theorem nameless_risk_no_warning :
    namelessRiskData.risks = [namelessRisk] ∧ namelessRisk.name = none ∧
    isCriticalRisk namelessRisk = false ∧
    evaluate namelessRiskData = (ScreenResult.Pass, []) := by
  decide

/-- C6 amended: in the warning step, each risk whose name is present and
does not match the critical-name list contributes exactly one "WARN:"
reason; risks whose name is absent are skipped by the `if let` pattern and
contribute nothing. All these reasons appear, in order, in the output of
`evaluate`. -/
theorem warn_per_named_noncritical_risk (data : TokenScreenData)
    (h : hardTrigger data = false) :
    (warnRisks data).length = data.risks.countP isNamedNonCritical ∧
    (warnRisks data).Sublist (evaluate data).2 ∧
    (∀ s ∈ warnRisks data, strStartsWith ("WARN:") s = true) := by
  have hnil : hardReasons data = [] := (hardReasons_eq_nil_iff data).mpr h
  refine ⟨warnRisks_length data, ?_, fun s hs => mem_warnRisks data s hs⟩
  by_cases hw : WARNING_THRESHOLD ≤ (warnReasons data).length
  · rw [evaluate_of_no_hard_many_warns data hnil hw]
    exact (warnRisks_sublist data).cons _
  · rw [evaluate_of_no_hard_few_warns data hnil (Nat.not_le.mp hw)]
    exact warnRisks_sublist data

/-- A record with no hard-fail condition carrying one named, non-critical
risk. -/
def namedRiskData : TokenScreenData :=
  { defaultTokenScreenData with
    total_holders := 1000
    risks := [{ name := some ("High ownership"), level := none, description := none,
                score := none, value := none }] }

/-- Witness for the amended C6 at `namedRiskData`. -/
theorem warn_per_named_noncritical_risk_witness :
    (warnRisks namedRiskData).length = namedRiskData.risks.countP isNamedNonCritical ∧
    (warnRisks namedRiskData).Sublist (evaluate namedRiskData).2 ∧
    (∀ s ∈ warnRisks namedRiskData, strStartsWith ("WARN:") s = true) :=
  warn_per_named_noncritical_risk namedRiskData (by decide)

/-- A primary report whose token has exactly one recorded holder. -/
def oneHolderPrimaryDoc : Json :=
  Json.obj [(("totalHolders"), Json.num 1)]

/-- A holder-statistics document whose counts exceed the total holder
count of `oneHolderPrimaryDoc`. -/
def overCountStatDoc : Json :=
  Json.obj [(("data"), Json.obj
    [(("insider_count"), Json.num 2), (("bluechip_owner_count"), Json.num 3),
     (("fresh_wallet_count"), Json.num 2), (("bundler_count"), Json.num 2)])]

/-- A top-holders document with a single bundler-tagged holder whose
supply share is negative (malformed upstream data). -/
def negativePctHoldersDoc : Json :=
  Json.obj [(("data"), Json.obj [(("list"), Json.arr
    [Json.obj [(("amount_percentage"), Json.num (-(1 / 20))),
               (("tags"), Json.arr [Json.str ("bundler")])]])])]

lemma bundler_tag_lower : strContains (strToLower ("bundler")) ("bundler") = true := by
  decide

/-- The record after the full merge sequence on the documents above. -/
def outOfBoundsRecord : TokenScreenData :=
  merge_gmgn_token_holders
    (merge_gmgn_holder_stat (parse_rugcheck ("m") oneHolderPrimaryDoc) overCountStatDoc)
    negativePctHoldersDoc

/-- Counterexample to C5 as stated: after a parse followed by the two
merges, the uncapped derived fields escape their stated bounds — the
insider and bluechip percentages exceed 100, the fresh-wallet ratio
exceeds 1, and the bundler supply percentage is negative. -/
theorem derived_bounds_violation :
    outOfBoundsRecord.insiders_pct = some 200 ∧ ¬((200 : Rat) ≤ 100) ∧
    outOfBoundsRecord.bluechip_pct = some 300 ∧ ¬((300 : Rat) ≤ 100) ∧
    outOfBoundsRecord.fresh_ratio = some 2 ∧ ¬((2 : Rat) ≤ 1) ∧
    outOfBoundsRecord.bundler_supply_pct = some (-5) ∧ ¬((0 : Rat) ≤ (-5 : Rat)) := by
  refine ⟨?_, by norm_num, ?_, by norm_num, ?_, by norm_num, ?_, by norm_num⟩ <;>
    simp [outOfBoundsRecord, merge_gmgn_token_holders, merge_gmgn_holder_stat,
      parse_rugcheck, defaultTokenScreenData, oneHolderPrimaryDoc, overCountStatDoc,
      negativePctHoldersDoc, Json.get, Json.as_u64, Json.as_f64, Json.as_array,
      Json.as_str, parse_top_holder, has_bundler, bundler_tag_lower, List.lookup] <;>
    norm_num

/-- Bool test that an optional rational is absent or within `[lo, hi]`. -/
def optInRange (o : Option Rat) (lo hi : Rat) : Bool :=
  match o with
  | none => true
  | some x => decide (lo ≤ x) && decide (x ≤ hi)

/-- Bool test that an optional rational is absent or nonnegative. -/
def optNonneg (o : Option Rat) : Bool :=
  match o with
  | none => true
  | some x => decide (0 ≤ x)

/-- The derived-field bounds that the merge code actually enforces:
`bundler_pct` is capped into `[0, 100]`, `bundled_ratio` and
`bundler_holder_ratio` into `[0, 1]`; `insiders_pct`, `bluechip_pct` and
`fresh_ratio` are only nonnegative (uncapped). -/
def derivedBounds (d : TokenScreenData) : Bool :=
  optInRange d.bundler_pct 0 100 && optInRange d.bundled_ratio 0 1 &&
  optInRange d.bundler_holder_ratio 0 1 && optNonneg d.insiders_pct &&
  optNonneg d.bluechip_pct && optNonneg d.fresh_ratio

/-- C5 amended: the primary-report parse establishes the derived-field
bounds that the code enforces (all derived fields absent), and each of the
two merge steps preserves them: the capped fields `bundler_pct`,
`bundled_ratio` and `bundler_holder_ratio` stay within `[0, 100]` resp.
`[0, 1]`, and `insiders_pct`, `bluechip_pct` and `fresh_ratio` stay
nonnegative — but not within their natural upper bounds, and
`bundler_supply_pct` is an uncapped, possibly negative sum. -/
theorem derived_bounds_after_merges (m : String) (j j1 j2 : Json)
    (data : TokenScreenData) :
    derivedBounds (parse_rugcheck m j) = true ∧
    (derivedBounds data = true → derivedBounds (merge_gmgn_holder_stat data j1) = true) ∧
    (derivedBounds data = true → derivedBounds (merge_gmgn_token_holders data j2) = true) := by
  refine ⟨rfl, fun hd => ?_, fun hd => ?_⟩
  · cases hg : j1.get ("data") with
    | none =>
      unfold merge_gmgn_holder_stat
      rw [hg]
      exact hd
    | some d =>
      unfold merge_gmgn_holder_stat
      rw [hg]
      dsimp only
      by_cases h0 : (0 : Rat) < ((data.total_holders : Nat) : Rat)
      · rw [if_pos h0]
        unfold derivedBounds at hd ⊢
        simp only [Bool.and_eq_true] at hd ⊢
        refine ⟨⟨⟨⟨⟨?_, ?_⟩, hd.1.1.1.2⟩, ?_⟩, ?_⟩, ?_⟩
        · cases (d.get ("bundler_count")).bind Json.as_u64 with
          | none => rfl
          | some c =>
            simp only [optInRange, Option.map_some', Bool.and_eq_true, decide_eq_true_eq]
            by_cases hc : (100 : Rat) < ((c : Rat) / ((data.total_holders : Nat) : Rat)) * 100
            · rw [if_pos hc]
              norm_num
            · rw [if_neg hc]
              constructor
              · positivity
              · exact le_of_not_lt hc
        · cases (d.get ("bundler_count")).bind Json.as_u64 with
          | none => rfl
          | some c =>
            simp only [optInRange, Option.map_some', Bool.and_eq_true, decide_eq_true_eq]
            by_cases hc : (1 : Rat) < (c : Rat) / ((data.total_holders : Nat) : Rat)
            · rw [if_pos hc]
              norm_num
            · rw [if_neg hc]
              constructor
              · positivity
              · exact le_of_not_lt hc
        · cases (d.get ("insider_count")).bind Json.as_u64 with
          | none => rfl
          | some c =>
            simp only [optNonneg, Option.map_some', decide_eq_true_eq]
            positivity
        · cases (d.get ("bluechip_owner_count")).bind Json.as_u64 with
          | none => rfl
          | some c =>
            simp only [optNonneg, Option.map_some', decide_eq_true_eq]
            positivity
        · cases (d.get ("fresh_wallet_count")).bind Json.as_u64 with
          | none => rfl
          | some c =>
            simp only [optNonneg, Option.map_some', decide_eq_true_eq]
            positivity
      · rw [if_neg h0]
        exact hd
  · cases hg : ((j2.get ("data")).bind (fun d => d.get ("list"))).bind Json.as_array with
    | none =>
      unfold merge_gmgn_token_holders
      rw [hg]
      exact hd
    | some list =>
      unfold merge_gmgn_token_holders
      rw [hg]
      dsimp only
      unfold derivedBounds at hd ⊢
      simp only [Bool.and_eq_true] at hd ⊢
      refine ⟨⟨⟨⟨⟨hd.1.1.1.1.1, hd.1.1.1.1.2⟩, ?_⟩, hd.1.1.2⟩, hd.1.2⟩, hd.2⟩
      by_cases hn : 0 < (list.map parse_top_holder).length
      · rw [if_pos hn]
        unfold optInRange
        simp only [Bool.and_eq_true, decide_eq_true_eq]
        have hle : ((list.map parse_top_holder).filter has_bundler).length ≤
            (list.map parse_top_holder).length := List.length_filter_le _ _
        have hpos : (0 : Rat) < ((list.map parse_top_holder).length : Rat) := by
          exact_mod_cast hn
        constructor
        · positivity
        · rw [div_le_one hpos]
          exact_mod_cast hle
      · rw [if_neg hn]
        rfl

/-- Witness for the amended C5 at concrete documents: the empty primary
report, the holder-statistics document `statDocWithFresh` merged into
`passingBase`, and the empty top-holders document merged into
`passingBase`. -/
theorem derived_bounds_after_merges_witness :
    derivedBounds (parse_rugcheck ("m") Json.null) = true ∧
    derivedBounds (merge_gmgn_holder_stat passingBase statDocWithFresh) = true ∧
    derivedBounds (merge_gmgn_token_holders passingBase emptyHoldersDoc) = true := by
  have h := derived_bounds_after_merges ("m") Json.null statDocWithFresh emptyHoldersDoc
    passingBase
  exact ⟨h.1, h.2.1 (by decide), h.2.2 (by decide)⟩
